import Mathlib

/-!
Verification of the AVSBench S4 training orchestrator
(`src/avs_scripts/avs_s4/train.py`) against its natural-language
specification.  The development shallowly embeds the control logic of
`Lite.run` and `main`: the running-average meters, the per-iteration
training bookkeeping, the per-epoch validation / best-checkpoint logic
(including the Python name-resolution environment relevant to the
`checkpoint_dir` reference on line 183), the backbone selection, the
batch reshaping, the loss-combination contract and the filesystem
effects of the script-archiving and checkpoint-write code.
-/

namespace AVS

/-! ## Running-average meters

Modelled from the spec: `pyutils.AverageMeter` lives in `utils/pyutils.py`,
which is not under `src/`; only its call sites in `train.py` are.  Spec §3
(RunningAverage): a named accumulator with (sum, count); `add` appends a
value and increments the count; `pop` returns the mean and resets to empty;
`pop` on an empty window is undefined behaviour, modelled here as `none`. -/
structure AverageMeter where
  sum : ℚ
  count : ℕ
deriving DecidableEq

def AverageMeter.empty : AverageMeter := ⟨0, 0⟩

def AverageMeter.add (m : AverageMeter) (v : ℚ) : AverageMeter :=
  ⟨m.sum + v, m.count + 1⟩

/-- Mean of the values currently in the window. -/
def meterMean (m : AverageMeter) : ℚ := m.sum / (m.count : ℚ)

/-- `pop` returns the mean and resets the window; on an empty window the
behaviour is undefined (`none`). -/
def AverageMeter.pop (m : AverageMeter) : Option (ℚ × AverageMeter) :=
  if m.count = 0 then none else some (meterMean m, AverageMeter.empty)

/-! ## Name environment of `Lite.run`

`train.py` line 183 evaluates the bare name `checkpoint_dir`.  Python
resolves a free name of a method body through: the method's local scope,
then the module's global scope, then builtins.  The two scopes are listed
here exactly as the source binds them. -/

/-- Names assigned (and hence local) in the body of `Lite.run`
(train.py lines 33-197), plus the parameters `self` and `args`. -/
def liteRunLocalNames : List String :=
  ["self", "args", "AVSModel", "model", "audio_backbone", "param",
   "optimizer", "avg_meter_total_loss", "avg_meter_iou_loss",
   "avg_meter_sa_loss", "avg_meter_miou", "train_dataset",
   "train_dataloader", "max_step", "val_dataset", "val_dataloader",
   "best_epoch", "global_step", "miou_list", "max_miou", "epoch",
   "n_iter", "batch_data", "imgs", "audio", "mask", "B", "frame", "C",
   "H", "W", "audio_feature", "output", "visual_map_list", "a_fea_list",
   "loss", "loss_dict", "train_log", "miou", "model_save_path", "val_log"]

/-- Module-level names of `train.py`: the imports (lines 1-19), the two
class/function definitions, and the `__main__`-block assignments
(lines 259, 322).  `checkpoint_dir` is bound only as a local variable of
`main` (line 238) and stored on `args.checkpoint_dir` (line 241), which
`Lite.run` never reads; it is therefore absent from both scopes. -/
def trainModuleGlobalNames : List String :=
  ["os", "time", "random", "shutil", "torch", "np", "argparse",
   "logging", "pl", "LightningLite", "cfg", "S4Dataset", "vggish",
   "IouSemanticAwareLoss", "pyutils", "logger", "mask_iou",
   "setup_logging", "AudioExtractor", "Lite", "main", "parser", "args"]

/-- Whether a bare name evaluated inside `Lite.run` resolves. -/
def nameBoundInLiteRun (n : String) : Bool :=
  liteRunLocalNames.contains n || trainModuleGlobalNames.contains n

/-! ## Validation / checkpoint loop (train.py lines 91-197) -/

/-- The fields of `args` consumed by the validation/checkpoint tail. -/
structure Args where
  sessionName : String
deriving DecidableEq

/-- Mutable run state owned by `Lite.run` (lines 91-94), extended with the
observable side-effect traces: the checkpoint writes performed by
`torch.save` (path, epoch) and the per-epoch validation log lines
(epoch, miou, max_miou) emitted by `logger.info` (line 194). -/
structure ValState where
  bestEpoch : ℕ
  miouList : List ℚ
  maxMiou : ℚ
  savedCheckpoints : List (String × ℕ)
  valLogs : List (ℕ × ℚ × ℚ)
deriving DecidableEq

/-- Lines 91-94: `best_epoch = 0`, `miou_list = []`, `max_miou = 0`. -/
def initValState : ValState := ⟨0, [], 0, [], []⟩

/-- A Python `NameError` raised while evaluating the given name; the
carried `ValState` is the run state at the moment the error is raised. -/
inductive RunError where
  | nameError (name : String) (state : ValState)
deriving DecidableEq

/-- Python `max` over a list known to be non-empty at its call site
(line 190: `max_miou = max(miou_list)` after the `append`); the `[]`
case is never reached there. -/
def listMax0 : List ℚ → ℚ
  | [] => 0
  | y :: ys => ys.foldl max y

/-- Embedding of train.py lines 180-194, entered with the popped mean
`miou` of the epoch's validation pass:

```
if miou > max_miou:
    model_save_path = os.path.join(checkpoint_dir, '%s_best.pth' % (args.session_name))
    torch.save(model.module.state_dict(), model_save_path)
    best_epoch = epoch
    logger.info(...)
miou_list.append(miou)
max_miou = max(miou_list)
val_log = ...; logger.info(val_log)
```

Building `model_save_path` first evaluates the bare name
`checkpoint_dir`; if it is unbound the statement raises `NameError`
before `torch.save` runs.  On the (for this program unreachable) bound
branch the embedding records the write with the file name of line 183;
the directory's runtime value is unknowable precisely because the name
is unbound, so only the `session_name`-derived file name is recorded. -/
def valEpochTail (args : Args) (epoch : ℕ) (miou : ℚ) (s : ValState) :
    Except RunError ValState :=
  match (if s.maxMiou < miou then
          (if nameBoundInLiteRun "checkpoint_dir" then
            Except.ok { s with
              savedCheckpoints :=
                s.savedCheckpoints ++ [(args.sessionName ++ "_best.pth", epoch)],
              bestEpoch := epoch }
          else
            Except.error (RunError.nameError "checkpoint_dir" s))
        else Except.ok s) with
  | Except.error e => Except.error e
  | Except.ok s1 =>
      Except.ok { s1 with
        miouList := s1.miouList ++ [miou],
        maxMiou := listMax0 (s1.miouList ++ [miou]),
        valLogs := s1.valLogs ++
          [(epoch, miou, listMax0 (s1.miouList ++ [miou]))] }

/-- The sequence of per-epoch validation tails, one per epoch, applied to
the successive popped mean mIoU values; an uncaught `NameError` aborts
the run (line 97 `for epoch in range(args.max_epoches)`). -/
def valRunAux (args : Args) : ℕ → ValState → List ℚ → Except RunError ValState
  | _, s, [] => Except.ok s
  | epoch, s, x :: xs =>
      match valEpochTail args epoch x s with
      | Except.error e => Except.error e
      | Except.ok s1 => valRunAux args (epoch + 1) s1 xs

/-- The whole run's validation/checkpoint behaviour as a function of the
per-epoch mean validation mIoU sequence, from the initial state of
lines 91-94. -/
def valRun (args : Args) (mious : List ℚ) : Except RunError ValState :=
  valRunAux args 0 initValState mious

/-- The run state observable at the end of the run: the final state on
normal completion, or the state at the moment of the uncaught error. -/
def runResultState : Except RunError ValState → ValState
  | Except.ok s => s
  | Except.error (RunError.nameError _ s) => s

/-- The checkpoint writes performed by the run. -/
def resultCheckpoints (r : Except RunError ValState) : List (String × ℕ) :=
  (runResultState r).savedCheckpoints

/-- Whether the run aborted with a `NameError` on the given name. -/
def failsWithNameError (n : String) : Except RunError ValState → Bool
  | Except.error (RunError.nameError m _) => m == n
  | Except.ok _ => false

/-- The predicate "some epoch's mean validation mIoU strictly exceeds the
best metric so far", tracking `max_miou` exactly as the loop does:
initially `maxM` with history `hist`, and after an epoch with value `x`,
`max` of the extended history (line 190). -/
def strictImprovementAux (maxM : ℚ) (hist : List ℚ) : List ℚ → Bool
  | [] => false
  | x :: xs =>
      decide (maxM < x) ||
        strictImprovementAux (listMax0 (hist ++ [x])) (hist ++ [x]) xs

def strictImprovement (mious : List ℚ) : Bool :=
  strictImprovementAux 0 [] mious

/-- The argparse default `--session_name S4` (line 260). -/
def defaultArgs : Args := ⟨"S4"⟩

/-! ## Training iteration bookkeeping (train.py lines 98-156) -/

/-- One emitted training log line (lines 137-148): the printed iteration
index `global_step - 1`, the total planned steps `max_step`, the three
popped running-average losses, `args.lambda_1`, and
`optimizer.param_groups[0]['lr']`. -/
structure TrainLog where
  iterIndex : ℕ
  maxStepField : ℕ
  totalLoss : ℚ
  iouLoss : ℚ
  saLoss : ℚ
  lambda1 : ℚ
  lr : ℚ
deriving DecidableEq

/-- The per-iteration mutable state of the training loop: the three loss
meters (lines 65-67), `global_step` (line 92), and the trace of emitted
training log lines (line 156). -/
structure TrainState where
  totalMeter : AverageMeter
  iouMeter : AverageMeter
  saMeter : AverageMeter
  globalStep : ℕ
  trainLogs : List TrainLog
deriving DecidableEq

/-- The three scalar loss values a batch contributes (lines 126-128):
`loss.item()`, `loss_dict['iou_loss']`, `loss_dict['sa_loss']`. -/
structure BatchLosses where
  totalLoss : ℚ
  iouLoss : ℚ
  saLoss : ℚ
deriving DecidableEq

/-- Line 79: `max_step = (len(train_dataset) // args.train_batch_size) * args.max_epoches`. -/
def maxStep (datasetSize batchSize maxEpoches : ℕ) : ℕ :=
  (datasetSize / batchSize) * maxEpoches

/-- Embedding of one training-loop iteration's bookkeeping
(lines 126-156): add the three batch losses to the meters, increment
`global_step`, and if `(global_step - 1) % 50 == 0` pop all three meters
and emit one log line.  `none` encodes a `pop` on an empty window (the
contract violation of spec §7); it never occurs, see the C10 theorem. -/
def trainIter (lambda1 lr : ℚ) (maxStepV : ℕ) (b : BatchLosses)
    (s : TrainState) : Option TrainState :=
  let tm := s.totalMeter.add b.totalLoss
  let im := s.iouMeter.add b.iouLoss
  let sm := s.saMeter.add b.saLoss
  let gs := s.globalStep + 1
  if (gs - 1) % 50 = 0 then
    match tm.pop, im.pop, sm.pop with
    | some (tv, tm1), some (iv, im1), some (sv, sm1) =>
        some ⟨tm1, im1, sm1, gs,
          s.trainLogs ++ [⟨gs - 1, maxStepV, tv, iv, sv, lambda1, lr⟩]⟩
    | _, _, _ => none
  else
    some ⟨tm, im, sm, gs, s.trainLogs⟩

/-- Embedding of the per-epoch mIoU accumulation (lines 161-180): one
`avg_meter_miou.add` per validation batch, then one `pop` after the
stream is exhausted.  Starts from the meter state `m` at epoch entry
(empty both initially, line 68, and after each epoch's `pop`). -/
def valMiouEpoch (m : AverageMeter) (batchMious : List ℚ) :
    Option (ℚ × AverageMeter) :=
  (batchMious.foldl AverageMeter.add m).pop

/-! ## Backbone selection (train.py lines 34-41) -/

/-- ASCII lowercase of one character, as Python `str.lower` acts on the
backbone names used here. -/
def lowerChar (c : Char) : Char :=
  if 'A' ≤ c ∧ c ≤ 'Z' then Char.ofNat (c.toNat + 32) else c

/-- Python `(args.visual_backbone).lower()` (lines 34 and 37). -/
def pyLower (s : String) : String := String.mk (s.data.map lowerChar)

inductive Backbone where
  | resnet
  | pvt
deriving DecidableEq

/-- The stages of `Lite.run` that follow the backbone check: model
construction (line 44), dataset/dataloader construction (lines 71-88),
and the training loop (lines 97-197). -/
inductive RunPhase where
  | modelConstruct
  | dataLoad
  | trainLoop
deriving DecidableEq

/-- Lines 34-41: case-insensitive dispatch on `args.visual_backbone`;
any other name raises
`NotImplementedError("only support the resnet50 and pvt-v2")`. -/
def selectBackbone (name : String) : Except String Backbone :=
  if pyLower name = "resnet" then Except.ok Backbone.resnet
  else if pyLower name = "pvt" then Except.ok Backbone.pvt
  else Except.error "only support the resnet50 and pvt-v2"

/-- The prelude of `Lite.run`: the backbone check runs first; only on
success do the later phases (in source order) execute. -/
def runPrelude (name : String) : Except String (Backbone × List RunPhase) :=
  match selectBackbone name with
  | Except.error e => Except.error e
  | Except.ok b =>
      Except.ok (b, [RunPhase.modelConstruct, RunPhase.dataLoad,
                     RunPhase.trainLoop])

/-- The phases of `Lite.run` actually reached for a given backbone name
(none when the check raises). -/
def preludePhases (name : String) : List RunPhase :=
  match runPrelude name with
  | Except.ok (_, ps) => ps
  | Except.error _ => []

/-! ## Batch reshaping (train.py lines 105-110 and 168-171)

Tensor shapes are lists of dimension sizes; `view` succeeds exactly when
the element count is preserved, and `view(-1, rest...)` infers the
leading dimension as the quotient (requiring a positive, dividing rest
product), following the semantics of `torch.Tensor.view`. -/

def viewTo (s target : List ℕ) : Option (List ℕ) :=
  if s.prod = target.prod then some target else none

def viewInfer (s rest : List ℕ) : Option (List ℕ) :=
  if 0 < rest.prod ∧ rest.prod ∣ s.prod then
    some (s.prod / rest.prod :: rest)
  else none

/-- Training-batch reshapes (lines 105-109).  Per the shape comment on
line 99, `imgs : [B, frame, C, H, W]`, `audio : [B, frame, 1, mel, time]`,
`mask : [B, 1, 1, H, W]`; the code executes
`imgs.view(B*frame, C, H, W)`, `mask.view(B, H, W)` and
`audio.view(-1, audio.shape[2], audio.shape[3], audio.shape[4])`. -/
def trainBatchReshape (B frame C H W mel time : ℕ) :
    Option (List ℕ × List ℕ × List ℕ) := do
  let imgs ← viewTo [B, frame, C, H, W] [B * frame, C, H, W]
  let mask ← viewTo [B, 1, 1, H, W] [B, H, W]
  let audio ← viewInfer [B, frame, 1, mel, time] [1, mel, time]
  pure (imgs, mask, audio)

/-- Validation-batch reshapes (lines 168-171).  Per the shape comment on
line 162, `mask : [B, frame, 1, H, W]`; the code executes
`imgs.view(B*frame, C, H, W)`, `mask.view(B*frame, H, W)` and the same
`audio.view(-1, ...)` as in training. -/
def valBatchReshape (B frame C H W mel time : ℕ) :
    Option (List ℕ × List ℕ × List ℕ) := do
  let imgs ← viewTo [B, frame, C, H, W] [B * frame, C, H, W]
  let mask ← viewTo [B, frame, 1, H, W] [B * frame, H, W]
  let audio ← viewInfer [B, frame, 1, mel, time] [1, mel, time]
  pure (imgs, mask, audio)

/-! ## Loss combination (call site train.py lines 115-124)

Modelled from the spec: `IouSemanticAwareLoss` lives in `loss.py`, which
is not under `src/`; only its call site is.  Spec §4.2: the auxiliary
(semantic-alignment) loss is computed only when the auxiliary flag is
true and the selected stage list is non-empty, averaging the per-stage
misalignment penalties over the selected stages (the spec leaves
sum-versus-average free but deterministic); the total is
`primary + weight * auxiliary`, and the auxiliary term is exactly 0 when
disabled.  The per-stage penalty (which depends on the auxiliary maps,
audio projections and `mask_pooling_type`) is abstracted as `stageLoss`. -/

structure LossBreakdown where
  totalLoss : ℚ
  iouLoss : ℚ
  saLoss : ℚ
deriving DecidableEq

def IouSemanticAwareLoss (iouLoss : ℚ) (stageLoss : ℕ → ℚ) (lambda1 : ℚ)
    (countStages : List ℕ) (saLossFlag : Bool) : LossBreakdown :=
  let sa : ℚ :=
    if saLossFlag = true ∧ countStages ≠ [] then
      ((countStages.map stageLoss).sum) / (countStages.length : ℚ)
    else 0
  ⟨iouLoss + lambda1 * sa, iouLoss, sa⟩

/-! ## Filesystem effects (train.py lines 182-185 and 229-240) -/

/-- The set of directories that exist, as a list. -/
structure FS where
  dirs : List String
deriving DecidableEq

/-- `os.makedirs(d, exist_ok=True)`. -/
def mkdirs (fs : FS) (d : String) : FS :=
  if d ∈ fs.dirs then fs else ⟨d :: fs.dirs⟩

inductive WriteOutcome where
  | written (path : String)
  | ioError
deriving DecidableEq

/-- Embedding of the checkpoint write, line 185:
`torch.save(model.module.state_dict(), model_save_path)` with
`model_save_path = os.path.join(dir, session + "_best.pth")`.  The
statement has no surrounding `try`/`except`, so a missing parent
directory is an uncaught `IOError`: the filesystem is left unchanged and
no retry happens. -/
def saveCheckpointAt (fs : FS) (dir session : String) : FS × WriteOutcome :=
  if dir ∈ fs.dirs then
    (fs, WriteOutcome.written (dir ++ "/" ++ session ++ "_best.pth"))
  else (fs, WriteOutcome.ioError)

/-- Embedding of the script-archiving loop body of `main`,
lines 229-235: `try: shutil.copy(...)` and on `IOError`
`os.makedirs(os.path.dirname(dst_path), exist_ok=True)` followed by one
retried `shutil.copy` (a second failure would be uncaught). -/
def copyScriptTo (fs : FS) (dstDir name : String) : FS × WriteOutcome :=
  if dstDir ∈ fs.dirs then (fs, WriteOutcome.written (dstDir ++ "/" ++ name))
  else
    let fs1 := mkdirs fs dstDir
    if dstDir ∈ fs1.dirs then
      (fs1, WriteOutcome.written (dstDir ++ "/" ++ name))
    else (fs1, WriteOutcome.ioError)

/-! ## Distributed replicas (train.py line 255) -/

/-- `Lite(accelerator='gpu', strategy='ddp', devices=2)`: two worker
replicas, each executing `Lite.run` (rank 0 is the designated one under
ddp conventions). -/
def ddpNumReplicas : ℕ := 2

/-- The per-replica validation/checkpoint behaviour.  The body of
`Lite.run` (lines 33-197) never reads the replica rank (no
`self.global_rank` / `self.is_global_zero` guard around `torch.save`,
`logger.info` or `print`), so the embedded per-replica computation
ignores its rank argument: every replica performs the same side
effects. -/
def valRunOnReplica (_rank : ℕ) (args : Args) (mious : List ℚ) :
    Except RunError ValState :=
  valRun args mious

/-! ## Helper lemmas -/

lemma checkpoint_dir_unbound : nameBoundInLiteRun "checkpoint_dir" = false := by
  decide

lemma valEpochTail_improve (args : Args) (epoch : ℕ) (miou : ℚ) (s : ValState)
    (h : s.maxMiou < miou) :
    valEpochTail args epoch miou s
      = Except.error (RunError.nameError "checkpoint_dir" s) := by
  simp [valEpochTail, h, checkpoint_dir_unbound]

lemma valEpochTail_noimprove (args : Args) (epoch : ℕ) (miou : ℚ) (s : ValState)
    (h : ¬ s.maxMiou < miou) :
    valEpochTail args epoch miou s
      = Except.ok { s with
          miouList := s.miouList ++ [miou],
          maxMiou := listMax0 (s.miouList ++ [miou]),
          valLogs := s.valLogs
            ++ [(epoch, miou, listMax0 (s.miouList ++ [miou]))] } := by
  simp [valEpochTail, h]

/-- Whenever some epoch's popped mean mIoU strictly exceeds the running
best, the loop reaches line 183 and the unbound `checkpoint_dir` aborts
the run. -/
lemma valRunAux_improvement_fails (args : Args) :
    ∀ (mious : List ℚ) (epoch : ℕ) (s : ValState),
      strictImprovementAux s.maxMiou s.miouList mious = true →
      failsWithNameError "checkpoint_dir" (valRunAux args epoch s mious)
        = true := by
  intro mious
  induction mious with
  | nil => intro epoch s h; simp [strictImprovementAux] at h
  | cons x xs ih =>
      intro epoch s h
      by_cases hx : s.maxMiou < x
      · rw [valRunAux, valEpochTail_improve args epoch x s hx]
        simp [failsWithNameError]
      · rw [valRunAux, valEpochTail_noimprove args epoch x s hx]
        simp only [strictImprovementAux, Bool.or_eq_true,
          decide_eq_true_eq] at h
        rcases h with h | h
        · exact absurd h hx
        · exact ih (epoch + 1) _ h

/-- No execution of the validation loop ever extends the checkpoint-write
trace: the only `torch.save` site sits behind the never-satisfied bound
check for `checkpoint_dir`. -/
lemma valRunAux_no_checkpoints (args : Args) :
    ∀ (mious : List ℚ) (epoch : ℕ) (s : ValState),
      (runResultState (valRunAux args epoch s mious)).savedCheckpoints
        = s.savedCheckpoints := by
  intro mious
  induction mious with
  | nil => intro epoch s; rfl
  | cons x xs ih =>
      intro epoch s
      by_cases hx : s.maxMiou < x
      · rw [valRunAux, valEpochTail_improve args epoch x s hx]
        rfl
      · rw [valRunAux, valEpochTail_noimprove args epoch x s hx]
        exact ih (epoch + 1) _

lemma valEpochTail_ok_logs (args : Args) (epoch : ℕ) (miou : ℚ)
    (s s1 : ValState) (h : valEpochTail args epoch miou s = Except.ok s1) :
    s1.valLogs.length = s.valLogs.length + 1 := by
  by_cases hx : s.maxMiou < miou
  · rw [valEpochTail_improve args epoch miou s hx] at h
    cases h
  · rw [valEpochTail_noimprove args epoch miou s hx] at h
    cases h
    simp

/-- A successfully completed validation loop emits exactly one `val_log`
line per epoch (line 194). -/
lemma valRunAux_ok_logs_length (args : Args) :
    ∀ (mious : List ℚ) (epoch : ℕ) (s s1 : ValState),
      valRunAux args epoch s mious = Except.ok s1 →
      s1.valLogs.length = s.valLogs.length + mious.length := by
  intro mious
  induction mious with
  | nil => intro epoch s s1 h; cases h; simp
  | cons x xs ih =>
      intro epoch s s1 h
      rw [valRunAux] at h
      cases hstep : valEpochTail args epoch x s with
      | error e => rw [hstep] at h; cases h
      | ok s2 =>
          rw [hstep] at h
          have h2 := ih (epoch + 1) s2 s1 h
          have h3 := valEpochTail_ok_logs args epoch x s s2 hstep
          simp [h2, h3]
          omega

lemma foldl_add_count :
    ∀ (l : List ℚ) (m : AverageMeter),
      (l.foldl AverageMeter.add m).count = m.count + l.length := by
  intro l
  induction l with
  | nil => intro m; simp
  | cons x xs ih =>
      intro m
      simp [List.foldl_cons, ih, AverageMeter.add]
      omega

lemma viewTo_of_prod_eq {s t : List ℕ} (h : s.prod = t.prod) :
    viewTo s t = some t := by
  simp [viewTo, h]

lemma audio_viewInfer (B frame mel time : ℕ) (hm : 0 < mel) (ht : 0 < time) :
    viewInfer [B, frame, 1, mel, time] [1, mel, time]
      = some [B * frame, 1, mel, time] := by
  unfold viewInfer
  have h1 : ([1, mel, time] : List ℕ).prod = mel * time := by simp
  have h2 : ([B, frame, 1, mel, time] : List ℕ).prod
      = B * frame * (mel * time) := by simp; ring
  rw [h1, h2, if_pos]
  · rw [Nat.mul_div_cancel _ (by positivity)]
  · exact ⟨by positivity, dvd_mul_left (mel * time) (B * frame)⟩

/-! ## Claim theorems -/

/-- Claim C3: the checkpoint save path inside `Lite.run` is built from the
free variable `checkpoint_dir`, which is bound only as a local variable of
`main` (stored on `args.checkpoint_dir` and never read back); therefore,
for every run in which some epoch's mean validation mIoU strictly exceeds
the best so far, the first save attempt fails with an unbound-name error
before any checkpoint file is written. -/
theorem C3_unbound_checkpoint_dir_fails_first_save :
    nameBoundInLiteRun "checkpoint_dir" = false
    ∧ ∀ (args : Args) (mious : List ℚ),
        strictImprovement mious = true →
        failsWithNameError "checkpoint_dir" (valRun args mious) = true
        ∧ resultCheckpoints (valRun args mious) = [] := by
  refine ⟨checkpoint_dir_unbound, ?_⟩
  intro args mious h
  refine ⟨valRunAux_improvement_fails args mious 0 initValState h, ?_⟩
  simpa [resultCheckpoints, initValState] using
    valRunAux_no_checkpoints args mious 0 initValState

/-- Witness for C3 at the one-epoch mIoU sequence `[1/2]`. -/
theorem C3_witness :
    failsWithNameError "checkpoint_dir" (valRun defaultArgs [mkRat 1 2]) = true
    ∧ resultCheckpoints (valRun defaultArgs [mkRat 1 2]) = [] :=
  C3_unbound_checkpoint_dir_fails_first_save.2 defaultArgs [mkRat 1 2]
    (by decide)

/-- Claim C1 (code bug): on the spec's own validation mIoU sequence
[0.10, 0.55, 0.55, 0.80] the claim predicts checkpoint writes exactly at
epochs 0, 1 and 3; the code instead aborts with the unbound
`checkpoint_dir` `NameError` at the very first save attempt (epoch 0),
before any checkpoint is written and before `miou_list` receives its
first entry. -/
theorem C1_spec_miou_sequence_crashes_before_any_save :
    failsWithNameError "checkpoint_dir"
      (valRun defaultArgs [mkRat 1 10, mkRat 11 20, mkRat 11 20, mkRat 4 5])
      = true
    ∧ resultCheckpoints
      (valRun defaultArgs [mkRat 1 10, mkRat 11 20, mkRat 11 20, mkRat 4 5])
      = []
    ∧ (runResultState
      (valRun defaultArgs
        [mkRat 1 10, mkRat 11 20, mkRat 11 20, mkRat 4 5])).miouList
      = [] := by
  refine ⟨by decide, by decide, by decide⟩

/-- Counterexample to claim C2: `max_miou` is initialised to `0`
(line 94), which is NOT strictly below every valid mIoU value — `0`
itself is a valid mIoU (fully disjoint masks) — and a run whose first
validation epoch has mean mIoU `0` completes that epoch with no
checkpoint save triggered at all. -/
theorem C2_sentinel_counterexample :
    initValState.maxMiou = 0
    ∧ ¬ initValState.maxMiou < (0:ℚ)
    ∧ valRun defaultArgs [0] = Except.ok ⟨0, [0], 0, [], [(0, 0, 0)]⟩ :=
  ⟨rfl, by simp [initValState], rfl⟩

/-- Claim C2 as amended: `max_miou` starts at `0`, so the first
validation epoch triggers the save branch if and only if its mean mIoU is
strictly positive; when it does trigger, the attempt aborts with the
unbound `checkpoint_dir` error, and when it does not (mean mIoU `≤ 0`)
the epoch completes with the first mIoU as the recorded best and no save.
-/
theorem C2_amended_first_epoch_save_iff_positive (args : Args) (q : ℚ) :
    valRun args [q] =
      if 0 < q then
        Except.error (RunError.nameError "checkpoint_dir" initValState)
      else Except.ok ⟨0, [q], q, [], [(0, q, q)]⟩ := by
  by_cases h : 0 < q
  · rw [if_pos h]
    show valRunAux args 0 initValState [q] = _
    rw [valRunAux, valEpochTail_improve args 0 q initValState h]
  · rw [if_neg h]
    show valRunAux args 0 initValState [q] = _
    rw [valRunAux, valEpochTail_noimprove args 0 q initValState h]
    rfl

/-- Counterexample to claim C6: under `devices=2` there is a replica of
rank 1 distinct from the designated rank-0 replica, yet it emits the
per-epoch validation log line and executes the checkpoint-save code path
(reaching the `checkpoint_dir` name error) exactly like rank 0 —
`Lite.run` contains no rank guard. -/
theorem C6_replica_counterexample :
    1 < ddpNumReplicas
    ∧ (runResultState (valRunOnReplica 1 defaultArgs [0])).valLogs ≠ []
    ∧ failsWithNameError "checkpoint_dir"
        (valRunOnReplica 1 defaultArgs [mkRat 1 2]) = true :=
  ⟨by decide, by decide, by decide⟩

/-- Claim C6 as amended: `Lite.run` performs no rank-dependent gating of
its side effects, so every replica behaves exactly like replica 0; in
particular every replica of a successfully completing run emits one
validation log line per epoch. -/
theorem C6_amended_replicas_identical (r : ℕ) (args : Args)
    (mious : List ℚ) :
    valRunOnReplica r args mious = valRunOnReplica 0 args mious
    ∧ ∀ s1 : ValState, valRunOnReplica r args mious = Except.ok s1 →
        s1.valLogs.length = mious.length := by
  refine ⟨rfl, ?_⟩
  intro s1 h
  simpa [initValState] using
    valRunAux_ok_logs_length args mious 0 initValState s1 h

/-- Witness for the amended C6 at rank 1 with the one-epoch mIoU
sequence `[0]`. -/
theorem C6_witness :
    valRunOnReplica 1 defaultArgs [0] = valRunOnReplica 0 defaultArgs [0]
    ∧ (ValState.mk 0 [0] 0 [] [(0, 0, 0)]).valLogs.length = [(0:ℚ)].length :=
  ⟨(C6_amended_replicas_identical 1 defaultArgs [0]).1,
   (C6_amended_replicas_identical 1 defaultArgs [0]).2
     (ValState.mk 0 [0] 0 [] [(0, 0, 0)]) rfl⟩

/-- Claim C4: a training log line is emitted exactly at those iterations
whose pre-increment step index is `0` modulo `50`; the emitted line
carries the pre-increment step index (`global_step - 1`), the total
planned steps `(dataset_size // batch_size) * max_epochs`, the three
running-average losses popped from the meters (each meter reset to the
empty window afterwards), the configured auxiliary weight `lambda_1` and
the optimizer's current learning rate; at all other iterations no line is
emitted and the meters keep accumulating. -/
theorem C4_train_log_every_fifty (lambda1 lr : ℚ) (dsz bsz mep : ℕ)
    (b : BatchLosses) (s : TrainState) :
    trainIter lambda1 lr (maxStep dsz bsz mep) b s =
      some (if s.globalStep % 50 = 0 then
        ⟨AverageMeter.empty, AverageMeter.empty, AverageMeter.empty,
         s.globalStep + 1,
         s.trainLogs ++ [⟨s.globalStep, (dsz / bsz) * mep,
           meterMean (s.totalMeter.add b.totalLoss),
           meterMean (s.iouMeter.add b.iouLoss),
           meterMean (s.saMeter.add b.saLoss), lambda1, lr⟩]⟩
      else
        ⟨s.totalMeter.add b.totalLoss, s.iouMeter.add b.iouLoss,
         s.saMeter.add b.saLoss, s.globalStep + 1, s.trainLogs⟩) := by
  by_cases h : s.globalStep % 50 = 0
  · simp [trainIter, h, AverageMeter.pop, AverageMeter.add, maxStep]
  · simp [trainIter, h]

/-- Claim C10: the orchestrator never pops an empty accumulator window:
every training iteration adds to all three loss meters before any pop in
that same iteration (so `trainIter` never hits the empty-pop case), and
the per-epoch mIoU pop succeeds whenever the validation batch stream is
non-empty. -/
theorem C10_no_empty_pop :
    (∀ (lambda1 lr : ℚ) (ms : ℕ) (b : BatchLosses) (s : TrainState),
        (trainIter lambda1 lr ms b s).isSome = true)
    ∧ ∀ (m : AverageMeter) (mious : List ℚ),
        mious ≠ [] → (valMiouEpoch m mious).isSome = true := by
  constructor
  · intro lambda1 lr ms b s
    by_cases h : s.globalStep % 50 = 0 <;>
      simp [trainIter, h, AverageMeter.pop, AverageMeter.add]
  · intro m mious h
    cases mious with
    | nil => exact absurd rfl h
    | cons x xs =>
        have hc := foldl_add_count (x :: xs) m
        simp only [List.foldl_cons, List.length_cons] at hc
        have hne : (List.foldl AverageMeter.add (m.add x) xs).count ≠ 0 := by
          rw [hc]; omega
        simp [valMiouEpoch, AverageMeter.pop, hne]

/-- Witness for C10 at a one-batch validation stream. -/
theorem C10_witness :
    (valMiouEpoch AverageMeter.empty [mkRat 1 2]).isSome = true :=
  C10_no_empty_pop.2 AverageMeter.empty [mkRat 1 2] (by decide)

/-- Claim C8: any configured visual-backbone name other than the two
recognised variants (matched case-insensitively) raises the fatal
`NotImplementedError` at the top of `Lite.run`, before model
construction, data loading or any training step. -/
theorem C8_unknown_backbone_fatal (name : String)
    (h1 : pyLower name ≠ "resnet") (h2 : pyLower name ≠ "pvt") :
    runPrelude name = Except.error "only support the resnet50 and pvt-v2"
    ∧ preludePhases name = [] := by
  have hsel : selectBackbone name
      = Except.error "only support the resnet50 and pvt-v2" := by
    simp [selectBackbone, h1, h2]
  exact ⟨by simp [runPrelude, hsel], by simp [preludePhases, runPrelude, hsel]⟩

/-- Witness for C8 at the unrecognised backbone name "vgg". -/
theorem C8_witness :
    runPrelude "vgg" = Except.error "only support the resnet50 and pvt-v2"
    ∧ preludePhases "vgg" = [] :=
  C8_unknown_backbone_fatal "vgg" (by decide) (by decide)

/-- Claim C5: the auxiliary (semantic-alignment) loss contributes exactly
`0` to the total loss whenever the auxiliary-loss flag is false or the
selected stage list is empty, regardless of the configured weight
`lambda_1`; in general the total equals the primary loss plus `lambda_1`
times the auxiliary loss. -/
theorem C5_aux_loss_contract (iou : ℚ) (f : ℕ → ℚ) (l1 : ℚ)
    (st : List ℕ) (fl : Bool) :
    (IouSemanticAwareLoss iou f l1 st fl).totalLoss
      = iou + l1 * (IouSemanticAwareLoss iou f l1 st fl).saLoss
    ∧ (fl = false ∨ st = [] →
        (IouSemanticAwareLoss iou f l1 st fl).saLoss = 0
        ∧ (IouSemanticAwareLoss iou f l1 st fl).totalLoss = iou) := by
  refine ⟨rfl, ?_⟩
  intro h
  have hc : ¬ (fl = true ∧ st ≠ []) := by
    rcases h with h | h <;> simp [h]
  exact ⟨by simp [IouSemanticAwareLoss, hc],
         by simp [IouSemanticAwareLoss, hc]⟩

/-- Witness for C5: empty stage list with non-zero weight `5`
contributes nothing. -/
theorem C5_witness :
    (IouSemanticAwareLoss 3 (fun _ => 1) 5 [] true).saLoss = 0
    ∧ (IouSemanticAwareLoss 3 (fun _ => 1) 5 [] true).totalLoss = 3 :=
  (C5_aux_loss_contract 3 (fun _ => 1) 5 [] true).2 (Or.inr rfl)

/-- Counterexample to claim C7: a checkpoint write into a missing
directory fails immediately — the filesystem is unchanged (no directory
is created) and the outcome is the uncaught IOError, with no retry —
whereas the claim predicts a created directory and a successful retried
write. -/
theorem C7_checkpoint_write_counterexample :
    saveCheckpointAt ⟨[]⟩ "ckpt" "S4" = (⟨[]⟩, WriteOutcome.ioError) := rfl

/-- Claim C7 as amended: the create-missing-directory-and-retry-once
recovery exists only in `main`'s script-archiving loop (lines 229-235),
where it always succeeds after the one retry; the checkpoint write of
line 185 has no such handler and fails fatally whenever its target
directory is missing. -/
theorem C7_amended_retry_only_for_scripts (fs : FS)
    (dir session name : String) :
    (dir ∉ fs.dirs →
      saveCheckpointAt fs dir session = (fs, WriteOutcome.ioError))
    ∧ (copyScriptTo fs dir name).2
        = WriteOutcome.written (dir ++ "/" ++ name) := by
  constructor
  · intro h
    simp [saveCheckpointAt, h]
  · by_cases h : dir ∈ fs.dirs
    · simp [copyScriptTo, h]
    · simp [copyScriptTo, h, mkdirs]

/-- Witness for the amended C7 on an empty filesystem. -/
theorem C7_witness :
    saveCheckpointAt ⟨[]⟩ "d" "S4" = (⟨[]⟩, WriteOutcome.ioError)
    ∧ (copyScriptTo ⟨[]⟩ "d" "train.py").2
        = WriteOutcome.written ("d" ++ "/" ++ "train.py") :=
  ⟨(C7_amended_retry_only_for_scripts ⟨[]⟩ "d" "S4" "train.py").1 (by decide),
   (C7_amended_retry_only_for_scripts ⟨[]⟩ "d" "S4" "train.py").2⟩

/-- Claim C9: training batches reshape images
`[B, frames, C, H, W] → [B*frames, C, H, W]`, masks `→ [B, H, W]` and
audio `→ [B*frames, 1, mel, time]`; validation batches fold the frame
dimension into the batch dimension for both images and masks, masks
becoming `[B*frames, H, W]`. -/
theorem C9_batch_reshapes (B frame C H W mel time : ℕ)
    (hm : 0 < mel) (ht : 0 < time) :
    trainBatchReshape B frame C H W mel time
      = some ([B * frame, C, H, W], [B, H, W], [B * frame, 1, mel, time])
    ∧ valBatchReshape B frame C H W mel time
      = some ([B * frame, C, H, W], [B * frame, H, W],
              [B * frame, 1, mel, time]) := by
  have himg := @viewTo_of_prod_eq [B, frame, C, H, W] [B * frame, C, H, W]
    (by simp; ring)
  have hmask := @viewTo_of_prod_eq [B, 1, 1, H, W] [B, H, W] (by simp)
  have hvmask := @viewTo_of_prod_eq [B, frame, 1, H, W] [B * frame, H, W]
    (by simp; ring)
  have haud := audio_viewInfer B frame mel time hm ht
  constructor
  · simp [trainBatchReshape, himg, hmask, haud]
  · simp [valBatchReshape, himg, hvmask, haud]

/-- Witness for C9 at the documented concrete shapes
(batch 4, 5 frames, 3x224x224 images, 96x64 audio mels). -/
theorem C9_witness :
    trainBatchReshape 4 5 3 224 224 96 64
      = some ([4 * 5, 3, 224, 224], [4, 224, 224], [4 * 5, 1, 96, 64])
    ∧ valBatchReshape 4 5 3 224 224 96 64
      = some ([4 * 5, 3, 224, 224], [4 * 5, 224, 224], [4 * 5, 1, 96, 64]) :=
  C9_batch_reshapes 4 5 3 224 224 96 64 (by decide) (by decide)

end AVS
